import Mathlib

/-!
Verification development for the notebook `examples/sup_variant_prediction.ipynb`
(supervised variant-effect prediction on precomputed ESM embeddings).

The notebook is a linear five-stage script:
  1. cell 13: load labels `ys` and embeddings `Xs` from a FASTA file and a
     directory of per-record tensors;
  2. cell 15: `train_test_split(Xs, ys, train_size=0.8, random_state=42)`;
  3. cell 18: `PCA(60).fit_transform(Xs_train)`;
  4. cell 26: grid search over three regression families (note: as shipped,
     the first statement of cell 26 has an unbalanced parenthesis);
  5. cell 35: print one Spearman statistic per family on the held-out set.

Third-party library calls (sklearn, scipy, torch) are modelled at the level
of their documented contracts; repository code is embedded statement by
statement.
-/

namespace VariantPrediction

/-- Configured embedding layer, cell 11: `EMB_LAYER = 34`. -/
def EMB_LAYER : Nat := 34

/-- Configured embeddings directory, cell 11: `EMB_PATH = "./P62593_reprs/"`. -/
def EMB_PATH : String := "./P62593_reprs/"

/-- A Python `str`, modelled as its character sequence. -/
abbrev PyStr : Type := List Char

/-- Python `str.split(sep)` with an explicit one-character separator:
`"a|b".split("|") = ["a","b"]`, `"".split("|") = [""]`, empty fields kept. -/
def strSplit (sep : Char) : PyStr → List PyStr
  | [] => [[]]
  | c :: cs =>
      if c = sep then [] :: strSplit sep cs
      else
        match strSplit sep cs with
        | [] => [[c]]
        | g :: gs => (c :: g) :: gs

/-- Model of the object stored in one `.pt` embedding file: a dictionary
mapping a layer index to a mean-pooled representation vector, matching
`embs['mean_representations'][EMB_LAYER]` in cell 13. -/
structure EmbFile where
  mean_representations : List (Nat × List ℚ)
deriving DecidableEq

/-- Dictionary access `embs['mean_representations'][layer]`. -/
def EmbFile.layerRepr (e : EmbFile) (layer : Nat) : Option (List ℚ) :=
  e.mean_representations.lookup layer

/-- The directory of embedding files: maps a path to the file stored there,
`none` when the file is missing. -/
def FileSystem : Type := PyStr → Option EmbFile

/-- Numeric value of a digit character. -/
def digitVal (c : Char) : Nat := c.toNat - 48

/-- Value of a digit string read in base 10. -/
def natOfDigits (cs : List Char) : Nat :=
  cs.foldl (fun a c => 10 * a + digitVal c) 0

/-- Model of the Python builtin `float` applied to a header field
(cell 13, `float(scaled_effect)`): parses an optional sign, an integer part
and an optional fractional part, and returns `none` on any other input, on
which Python raises an uncaught `ValueError`. (Exponent and `inf`/`nan`
forms never occur in the data and are not modelled.) -/
def pyFloat (s : PyStr) : Option ℚ :=
  let signBody : ℚ × List Char :=
    match s with
    | c :: rest => if c = '-' then (-1, rest) else if c = '+' then (1, rest) else (1, s)
    | [] => (1, [])
  let sign := signBody.1
  let body := signBody.2
  match strSplit '.' body with
  | [ip] =>
      if ip ≠ [] ∧ ip.all Char.isDigit then
        some (sign * (natOfDigits ip : ℚ))
      else none
  | [ip, fp] =>
      if (ip ++ fp) ≠ [] ∧ (ip ++ fp).all Char.isDigit then
        some (sign * ((natOfDigits ip : ℚ) + (natOfDigits fp : ℚ) / 10 ^ fp.length))
      else none
  | _ => none

/-- `header.split('|')[-1]` of cell 13: the last `|`-separated field of a
FASTA header. (`str.split` always returns a non-empty list, so `[-1]` is
total.) -/
def lastField (header : PyStr) : PyStr :=
  (strSplit '|' header).getLastD []

/-- The embedding file name built in cell 13:
`f'{EMB_PATH}/{header[1:]}.pt'` — the header with its leading `>` stripped. -/
def embFileName (header : PyStr) : PyStr :=
  EMB_PATH.data ++ [ '/' ] ++ (header.drop 1) ++ ".pt".data

/-- One iteration of the loading loop of cell 13 for a FASTA record
`(header, _seq)`: parse the effect from the header, `torch.load` the
embedding file, index `['mean_representations'][EMB_LAYER]`.  Any failure
is an uncaught Python exception, modelled as `Except.error`. -/
def loadStep (fs : FileSystem) (rec : PyStr × PyStr) : Except String (ℚ × List ℚ) := do
  let header := rec.1
  let scaled_effect := lastField header
  let y ← match pyFloat scaled_effect with
    | some y => Except.ok y
    | none => Except.error "ValueError: could not convert string to float"
  let embs ← match fs (embFileName header) with
    | some e => Except.ok e
    | none => Except.error "FileNotFoundError"
  let x ← match embs.layerRepr EMB_LAYER with
    | some v => Except.ok v
    | none => Except.error "KeyError"
  Except.ok (y, x)

/-- Model of `torch.stack(Xs, dim=0)` (cell 13): errors on an empty list or
on vectors of differing lengths; otherwise returns the rows as a matrix. -/
def torchStack (xs : List (List ℚ)) : Except String (List (List ℚ)) :=
  match xs with
  | [] => Except.error "RuntimeError: stack expects a non-empty TensorList"
  | v :: rest =>
      if rest.all (fun w => w.length = v.length) then Except.ok (v :: rest)
      else Except.error "RuntimeError: stack expects each tensor to be equal size"

/-- The loading loop of cell 13: process the FASTA records in order,
appending `(y, x)` per record; the first exception aborts the loop. -/
def loadLoop (fs : FileSystem) : List (PyStr × PyStr) → Except String (List (ℚ × List ℚ))
  | [] => Except.ok []
  | r :: rest => do
      let p ← loadStep fs r
      let ps ← loadLoop fs rest
      Except.ok (p :: ps)

/-- The whole loading stage (cell 13): run the loop over the FASTA records,
then stack the embeddings into the matrix `Xs` and keep the labels `ys`. -/
def loadXsYs (fs : FileSystem) (records : List (PyStr × PyStr)) :
    Except String (List ℚ × List (List ℚ)) := do
  let pairs ← loadLoop fs records
  let Xs ← torchStack (pairs.map (·.2))
  Except.ok (pairs.map (·.1), Xs)

/-! ### Stage 2: train / test split (cell 15) -/

/-- One step of a linear congruential generator; stands in for the
deterministic pseudo-random stream that `sklearn` derives from a seed.
Which concrete stream is used is a library detail; what matters below is
that it is a pure function of the seed. -/
def lcgNext (s : Nat) : Nat := (1664525 * s + 1013904223) % 4294967296

/-- Fuel-indexed Fisher–Yates extraction: at each step remove the element
indexed by the current generator state. -/
def shuffleGo {α : Type} : Nat → Nat → List α → List α
  | 0, _, _ => []
  | _ + 1, _, [] => []
  | fuel + 1, s, l@(_ :: _) =>
      let i := s % l.length
      match l[i]? with
      | some a => a :: shuffleGo fuel (lcgNext s) (l.eraseIdx i)
      | none => []

/-- Model of the seeded permutation `check_random_state(seed).permutation`:
a deterministic shuffle driven entirely by `seed`. -/
def seededShuffle {α : Type} (seed : Nat) (l : List α) : List α :=
  shuffleGo l.length seed l

/-- What `train_test_split` produces: the four arrays
`Xs_train, Xs_test, ys_train, ys_test`. -/
structure SplitResult (α β : Type) where
  XsTrain : List α
  XsTest : List α
  ysTrain : List β
  ysTest : List β
deriving DecidableEq

/-- Model of `sklearn.model_selection.train_test_split(X, y, train_size,
random_state)` with the default `shuffle=True`: `n_train = floor(train_size
* n)`, a permutation of the indices drawn from the seeded generator — the
explicit `random_state` when given, the ambient global generator state
otherwise — then test indices first, train indices next, as in
`ShuffleSplit`. -/
def train_test_split {α β : Type} (trainSize : ℚ) (random_state : Option Nat)
    (globalState : Nat) (X : List α) (y : List β) : SplitResult α β :=
  let n := X.length
  let nTrain := (trainSize * n).floor.toNat
  let nTest := n - nTrain
  let seed := random_state.getD globalState
  let perm := seededShuffle seed (List.range n)
  let testIdx := perm.take nTest
  let trainIdx := (perm.drop nTest).take nTrain
  { XsTrain := trainIdx.filterMap (fun i => X[i]?)
    XsTest := testIdx.filterMap (fun i => X[i]?)
    ysTrain := trainIdx.filterMap (fun i => y[i]?)
    ysTest := testIdx.filterMap (fun i => y[i]?) }

/-- `train_size = 0.8` of cell 15. -/
def train_size : ℚ := 8 / 10

/-- The call of cell 15:
`train_test_split(Xs, ys, train_size=train_size, random_state=42)`.
`globalState` is the state the global random generator happens to have on
this run; the call pins `random_state=42`. -/
def cell15Split {α β : Type} (globalState : Nat) (Xs : List α) (ys : List β) :
    SplitResult α β :=
  train_test_split train_size (some 42) globalState Xs ys

/-! ### Stage 3: PCA (cell 18) -/

/-- `num_pca_components = 60` (cell 18). -/
def num_pca_components : Nat := 60

/-- Dot product of two feature vectors. -/
def dotProd (a b : List ℚ) : ℚ := (List.zipWith (· * ·) a b).sum

/-- Per-column sums of a matrix with `n` columns. -/
def colSums (n : Nat) (X : List (List ℚ)) : List ℚ :=
  X.foldr (fun r acc => List.zipWith (· + ·) r acc) (List.replicate n 0)

/-- Per-column means (the centering step of PCA). -/
def colMeans (n : Nat) (X : List (List ℚ)) : List ℚ :=
  (colSums n X).map (· / (X.length : ℚ))

/-- Subtract the column means from every row. -/
def centerCols (X : List (List ℚ)) : List (List ℚ) :=
  let n := (X.head?.map List.length).getD 0
  let mu := colMeans n X
  X.map (fun r => List.zipWith (· - ·) r mu)

/-- Model of `PCA(k).fit_transform(X)` (cell 18), at the level of the
sklearn contract: center the data, then project each row onto the `k`
principal axes.  The axes themselves are produced by the library's SVD and
are abstracted as the argument `components` (one axis per entry); the
dimensions — the part the notebook relies on — are concrete. -/
def pcaFitTransform (components : List (List ℚ)) (X : List (List ℚ)) :
    List (List ℚ) :=
  (centerCols X).map (fun r => components.map (fun w => dotProd r w))

/-! ### Stage 4: hyperparameter grids (cells 23, 24, 26) -/

/-- A KNeighborsRegressor hyperparameter assignment (keys of `knn_grid`). -/
structure KNNParams where
  n_neighbors : Nat
  weights : String
  algorithm : String
  leaf_size : Nat
  p : Nat
deriving DecidableEq

/-- An SVR hyperparameter assignment (keys of `svm_grid`). -/
structure SVRParams where
  C : ℚ
  kernel : String
  degree : Nat
  gamma : String
deriving DecidableEq

/-- A RandomForestRegressor hyperparameter assignment (keys of `rfr_grid`). -/
structure RFRParams where
  n_estimators : Nat
  criterion : String
  max_features : String
  min_samples_split : Nat
  min_samples_leaf : Nat
deriving DecidableEq

/-- The declared value lists of `knn_grid` (cell 23). -/
def knn_n_neighbors : List Nat := [5, 10]

def knn_weights : List String := ["uniform", "distance"]

def knn_algorithm : List String := ["ball_tree", "kd_tree", "brute"]

def knn_leaf_size : List Nat := [15, 30]

def knn_p : List Nat := [1, 2]

/-- The declared value lists of `svm_grid` (cell 23). -/
def svm_C : List ℚ := [1 / 10, 1, 10]

def svm_kernel : List String := ["linear", "poly", "rbf", "sigmoid"]

def svm_degree : List Nat := [3]

def svm_gamma : List String := ["scale"]

/-- The declared value lists of `rfr_grid` (cell 23). -/
def rfr_n_estimators : List Nat := [20]

def rfr_criterion : List String := ["squared_error", "absolute_error"]

def rfr_max_features : List String := ["sqrt", "log2"]

def rfr_min_samples_split : List Nat := [5, 10]

def rfr_min_samples_leaf : List Nat := [1, 4]

/-- The candidate list `ParameterGrid(knn_grid)` enumerates: the Cartesian
product of the declared value lists. -/
def knnCandidates : List KNNParams :=
  knn_n_neighbors.flatMap fun a =>
    knn_weights.flatMap fun b =>
      knn_algorithm.flatMap fun c =>
        knn_leaf_size.flatMap fun d =>
          knn_p.map fun e => ⟨a, b, c, d, e⟩

/-- The candidate list `ParameterGrid(svm_grid)` enumerates. -/
def svmCandidates : List SVRParams :=
  svm_C.flatMap fun a =>
    svm_kernel.flatMap fun b =>
      svm_degree.flatMap fun c =>
        svm_gamma.map fun d => ⟨a, b, c, d⟩

/-- The candidate list `ParameterGrid(rfr_grid)` enumerates. -/
def rfrCandidates : List RFRParams :=
  rfr_n_estimators.flatMap fun a =>
    rfr_criterion.flatMap fun b =>
      rfr_max_features.flatMap fun c =>
        rfr_min_samples_split.flatMap fun d =>
          rfr_min_samples_leaf.map fun e => ⟨a, b, c, d, e⟩

/-- A candidate of any of the three families of cell 24
(`cls_list = [KNeighborsRegressor, SVR, RandomForestRegressor]`). -/
inductive ModelParams where
  | knn : KNNParams → ModelParams
  | svr : SVRParams → ModelParams
  | rfr : RFRParams → ModelParams
deriving DecidableEq

/-- The three per-family candidate lists, in the order of
`zip(cls_list, param_grid_list)` (cell 26). -/
def families : List (List ModelParams) :=
  [knnCandidates.map ModelParams.knn,
   svmCandidates.map ModelParams.svr,
   rfrCandidates.map ModelParams.rfr]

/-- Mean of a list of per-split scores (`mean_test_score`). -/
def meanScore (l : List ℚ) : ℚ := l.sum / (l.length : ℚ)

/-- The cross-validation scores of one candidate: the same list of
validation splits is scored for every candidate. -/
def cvScores {S M : Type} (score : S → M → ℚ) (splits : List S) (c : M) :
    List ℚ := splits.map (fun sp => score sp c)

/-- `mean_test_score` of one candidate. -/
def meanTestScore {S M : Type} (score : S → M → ℚ) (splits : List S) (c : M) :
    ℚ := meanScore (cvScores score splits c)

/-- `best_index_`: the first index whose value is maximal (sklearn ranks by
`mean_test_score` and takes the first best rank). -/
def bestIdx (l : List ℚ) : Nat :=
  l.findIdx (fun x => l.all (fun y => decide (y ≤ x)))

/-- Model of `GridSearchCV(estimator, param_grid, scoring='r2').fit` for one
family: every candidate of the family is scored on the common splits, and
`best_estimator_` is the candidate at `best_index_`.  `score sp c` abstracts
"fit candidate `c` on the training part of split `sp` and r2-score it on the
validation part", a computation delegated to sklearn. -/
def gridSearchFit {S M : Type} (score : S → M → ℚ) (splits : List S)
    (cands : List M) : Option M :=
  cands[bestIdx (cands.map (meanTestScore score splits))]?

/-- The second statement of cell 26, character for character:
`pipe = Pipeline(steps=(('pca', PCA(num_pca_components), ('model', 'passthrough')))`. -/
def squo : String := String.singleton (Char.ofNat 39)

def cell26PipeStmt : String :=
  "pipe = Pipeline(steps=((" ++ squo ++ "pca" ++ squo ++
    ", PCA(num_pca_components), (" ++ squo ++ "model" ++ squo ++ ", " ++
    squo ++ "passthrough" ++ squo ++ ")))"

/-- Net count of unclosed parentheses in a piece of Python source. -/
def parenBalance (s : String) : Int :=
  s.data.foldl
    (fun b c => if c = '(' then b + 1 else if c = ')' then b - 1 else b) 0

/-! ### The notebook as a state-threaded script

Each code cell reads some global variables and binds others; no cell
rebinds or modifies the arrays produced by an earlier cell, which the
following stage functions make explicit. -/

/-- The script-level variables of the notebook after the loading and
splitting cells. -/
structure NB where
  Xs : List (List ℚ)
  ys : List ℚ
  Xs_train : List (List ℚ)
  Xs_test : List (List ℚ)
  ys_train : List ℚ
  ys_test : List ℚ
  Xs_train_pca : List (List ℚ)
  grid_list : List (Option ModelParams)
  result_list : List (List (ModelParams × ℚ))
deriving DecidableEq

/-- Cell 15: bind the four split arrays from `Xs`, `ys`. -/
def cell15Run (globalState : Nat) (s : NB) : NB :=
  let r := cell15Split globalState s.Xs s.ys
  { s with Xs_train := r.XsTrain, Xs_test := r.XsTest,
           ys_train := r.ysTrain, ys_test := r.ysTest }

/-- Cell 18: `Xs_train_pca = pca.fit_transform(Xs_train)`.  `W` is the
component matrix the library fits. -/
def cell18Run (W : List (List ℚ)) (s : NB) : NB :=
  { s with Xs_train_pca := pcaFitTransform W s.Xs_train }

/-- The input array of `grid.fit(Xs_train, ys_train)` in cell 26: the raw
training features. -/
def cell26FitInput (s : NB) : List (List ℚ) := s.Xs_train

/-- Cell 26, the grid-search loop, as intended by its own comment ("make
sure data preprocessing (PCA here) is run inside CV"): for each family an
independent `GridSearchCV` is fit on `(Xs_train, ys_train)`; `score`
abstracts fitting one candidate pipeline on the training part of one split
of the data handed to `fit` and r2-scoring it on the validation part.
(As shipped the cell's first statement `cell26PipeStmt` has an unbalanced
parenthesis, so the cell raises `SyntaxError` before any of this runs; see
the theorems below.) -/
def cell26Run {S : Type}
    (score : List (List ℚ) → List ℚ → S → ModelParams → ℚ)
    (splits : List S) (s : NB) : NB :=
  { s with
    grid_list := families.map
      (fun fam => gridSearchFit (score (cell26FitInput s) s.ys_train) splits fam)
    result_list := families.map
      (fun fam => fam.map
        (fun c => (c, meanTestScore (score (cell26FitInput s) s.ys_train) splits c))) }

/-- `grid.predict(X)` delegates to `best_estimator_.predict(X)`. -/
def gridPredict (predict : ModelParams → List (List ℚ) → List ℚ)
    (g : Option ModelParams) (X : List (List ℚ)) : List ℚ :=
  match g with
  | some m => predict m X
  | none => []

/-- Cell 35, the evaluation loop: for each grid object, predict on
`Xs_test` and compute `scipy.stats.spearmanr(ys_test, preds)`.  `spearman`
abstracts the scipy statistic, `predict` the fitted best model; the returned
list is what gets printed, one entry per family. -/
def cell35Prints {R : Type} (spearman : List ℚ → List ℚ → R)
    (predict : ModelParams → List (List ℚ) → List ℚ) (s : NB) : List R :=
  s.grid_list.map (fun g => spearman s.ys_test (gridPredict predict g s.Xs_test))

/-- Cell 35 binds no new arrays: its value is the printed list, the state is
untouched. -/
def cell35Run {R : Type} (spearman : List ℚ → List ℚ → R)
    (predict : ModelParams → List (List ℚ) → List ℚ) (s : NB) :
    NB × List R :=
  (s, cell35Prints spearman predict s)

/-- The script from the loading cell on: any exception in cell 13
propagates and nothing downstream runs. -/
def script {S R : Type} (fs : FileSystem) (records : List (PyStr × PyStr))
    (globalState : Nat) (W : List (List ℚ))
    (score : List (List ℚ) → List ℚ → S → ModelParams → ℚ) (splits : List S)
    (spearman : List ℚ → List ℚ → R)
    (predict : ModelParams → List (List ℚ) → List ℚ) :
    Except String (NB × List R) := do
  let (ys, Xs) ← loadXsYs fs records
  let s0 : NB := ⟨Xs, ys, [], [], [], [], [], [], []⟩
  let s1 := cell15Run globalState s0
  let s2 := cell18Run W s1
  let s3 := cell26Run score splits s2
  Except.ok (cell35Run spearman predict s3)

/-! ### Helper lemmas -/

theorem ok_bind {ε α β : Type} (a : α) (k : α → Except ε β) :
    (Except.ok a >>= k) = k a := rfl

theorem error_bind {ε α β : Type} (e : ε) (k : α → Except ε β) :
    ((Except.error e : Except ε α) >>= k) = Except.error e := rfl

theorem torchStack_ok {xs Xs : List (List ℚ)} (h : torchStack xs = Except.ok Xs) :
    Xs = xs ∧ ∃ d, ∀ v ∈ Xs, v.length = d := by
  cases xs with
  | nil => simp [torchStack] at h
  | cons v rest =>
      simp only [torchStack] at h
      split at h
      case isTrue hall =>
        obtain rfl : Xs = v :: rest := by
          injection h with h; exact h.symm
        refine ⟨rfl, v.length, ?_⟩
        intro w hw
        rcases List.mem_cons.mp hw with rfl | hw
        · rfl
        · exact of_decide_eq_true (List.all_eq_true.mp hall w hw)
      case isFalse hall => cases h

theorem loadLoop_ok {fs : FileSystem} {l : List (PyStr × PyStr)}
    {out : List (ℚ × List ℚ)} (h : loadLoop fs l = Except.ok out) :
    out.length = l.length ∧
      ∀ (i : Nat) (r : PyStr × PyStr), l[i]? = some r →
        ∃ p, loadStep fs r = Except.ok p ∧ out[i]? = some p := by
  induction l generalizing out with
  | nil =>
      simp only [loadLoop] at h
      injection h with h
      subst h
      exact ⟨rfl, by intro i r hr; simp at hr⟩
  | cons r rest ih =>
      simp only [loadLoop] at h
      rcases hp : loadStep fs r with e | p <;> rw [hp] at h
      · rw [error_bind] at h; cases h
      rw [ok_bind] at h
      rcases hrest : loadLoop fs rest with e | ps <;> rw [hrest] at h
      · rw [error_bind] at h; cases h
      rw [ok_bind] at h
      obtain rfl : out = p :: ps := by injection h with h; exact h.symm
      obtain ⟨hlen, hfa⟩ := ih hrest
      refine ⟨by simp [hlen], ?_⟩
      intro i r' hr'
      cases i with
      | zero =>
          simp only [List.getElem?_cons_zero, Option.some.injEq] at hr'
          subst hr'
          exact ⟨p, hp, by simp⟩
      | succ n =>
          simp only [List.getElem?_cons_succ] at hr' ⊢
          exact hfa n r' hr'

theorem loadLoop_error {fs : FileSystem} {l : List (PyStr × PyStr)}
    (h : ∃ r ∈ l, ∃ e, loadStep fs r = Except.error e) :
    ∃ e, loadLoop fs l = Except.error e := by
  induction l with
  | nil => simp at h
  | cons r rest ih =>
      obtain ⟨r', hr', e, he⟩ := h
      rcases List.mem_cons.mp hr' with rfl | hr'
      · exact ⟨e, by simp only [loadLoop]; rw [he, error_bind]⟩
      · rcases hp : loadStep fs r with e0 | p
        · exact ⟨e0, by simp only [loadLoop]; rw [hp, error_bind]⟩
        · obtain ⟨e1, h1⟩ := ih ⟨r', hr', e, he⟩
          exact ⟨e1, by simp only [loadLoop]; rw [hp, ok_bind, h1, error_bind]⟩

theorem loadXsYs_ok {fs : FileSystem} {records : List (PyStr × PyStr)}
    {ys : List ℚ} {Xs : List (List ℚ)}
    (h : loadXsYs fs records = Except.ok (ys, Xs)) :
    ∃ pairs, loadLoop fs records = Except.ok pairs ∧
      torchStack (pairs.map (·.2)) = Except.ok Xs ∧ ys = pairs.map (·.1) := by
  rcases hp : loadLoop fs records with e | pairs
  · simp only [loadXsYs] at h; rw [hp, error_bind] at h; cases h
  simp only [loadXsYs] at h
  rw [hp, ok_bind] at h
  rcases hs : torchStack (pairs.map (·.2)) with e | Xs0
  · rw [hs, error_bind] at h; cases h
  rw [hs, ok_bind] at h
  obtain ⟨h1, h2⟩ : pairs.map (·.1) = ys ∧ Xs0 = Xs := by
    injection h with h; exact ⟨congrArg Prod.fst h, congrArg Prod.snd h⟩
  subst h2
  exact ⟨pairs, rfl, hs, h1.symm⟩

theorem loadStep_ok_inv {fs : FileSystem} {rec : PyStr × PyStr} {y : ℚ}
    {x : List ℚ} (h : loadStep fs rec = Except.ok (y, x)) :
    pyFloat (lastField rec.1) = some y ∧
      ∃ e, fs (embFileName rec.1) = some e ∧ e.layerRepr EMB_LAYER = some x := by
  rcases hpf : pyFloat (lastField rec.1) with _ | y0
  · simp [loadStep, hpf, error_bind] at h
  rcases hfs : fs (embFileName rec.1) with _ | emb
  · simp [loadStep, hpf, hfs, ok_bind, error_bind] at h
  rcases hlr : emb.layerRepr EMB_LAYER with _ | v
  · simp [loadStep, hpf, hfs, hlr, ok_bind, error_bind] at h
  simp only [loadStep, hpf, hfs, hlr, ok_bind, Except.ok.injEq,
    Prod.mk.injEq] at h
  obtain ⟨rfl, rfl⟩ := h
  exact ⟨rfl, emb, rfl, hlr⟩

theorem loadStep_error {fs : FileSystem} {rec : PyStr × PyStr}
    (h : pyFloat (lastField rec.1) = none ∨ fs (embFileName rec.1) = none) :
    ∃ e, loadStep fs rec = Except.error e := by
  rcases h with h1 | h2
  · exact ⟨"ValueError: could not convert string to float",
      by simp [loadStep, h1, error_bind]⟩
  · rcases hpf : pyFloat (lastField rec.1) with _ | y
    · exact ⟨"ValueError: could not convert string to float",
        by simp [loadStep, hpf, error_bind]⟩
    · exact ⟨"FileNotFoundError",
        by simp [loadStep, hpf, h2, ok_bind, error_bind]⟩

theorem bestIdx_max (l : List ℚ) (hlt : bestIdx l < l.length) :
    ∀ q ∈ l, q ≤ l.getD (bestIdx l) 0 := by
  have hp := @List.findIdx_getElem _ (fun x => l.all (fun y => decide (y ≤ x))) l hlt
  rw [List.getD_eq_getElem l 0 hlt]
  intro q hq
  exact of_decide_eq_true (List.all_eq_true.mp hp q hq)

theorem gridSearchFit_best {S M : Type} {score : S → M → ℚ} {splits : List S}
    {cands : List M} {b : M} (h : gridSearchFit score splits cands = some b) :
    b ∈ cands ∧
      ∀ c ∈ cands, meanTestScore score splits c ≤ meanTestScore score splits b := by
  simp only [gridSearchFit] at h
  rw [List.getElem?_eq_some] at h
  obtain ⟨hlt, hb⟩ := h
  have hlt2 : bestIdx (cands.map (meanTestScore score splits)) <
      (cands.map (meanTestScore score splits)).length := by
    simpa using hlt
  refine ⟨hb ▸ List.getElem_mem hlt, ?_⟩
  intro c hc
  have hmax := bestIdx_max (cands.map (meanTestScore score splits)) hlt2
  have hmem : meanTestScore score splits c ∈
      cands.map (meanTestScore score splits) := List.mem_map_of_mem _ hc
  have heq : (cands.map (meanTestScore score splits)).getD
      (bestIdx (cands.map (meanTestScore score splits))) 0 =
      meanTestScore score splits b := by
    rw [List.getD_eq_getElem _ 0 hlt2, List.getElem_map, hb]
  rw [heq] at hmax
  exact hmax _ hmem

/-! ### Claim theorems -/

/-- C10: the train/test split of cell 15 is deterministic — the call pins
`random_state=42` and `train_size=0.8`, so its result does not depend on the
ambient state of the global random generator: two runs on the same loaded
dataset produce identical train and test arrays, in the same order. -/
theorem cell15_split_deterministic {α β : Type} (g1 g2 : Nat)
    (Xs : List α) (ys : List β) :
    cell15Split g1 Xs ys = cell15Split g2 Xs ys ∧
    cell15Split g1 Xs ys = train_test_split (8 / 10) (some 42) g1 Xs ys :=
  ⟨rfl, rfl⟩

/-- C5: the projection stage reduces dimensionality — on a training matrix
whose rows have 1280 features, `PCA(num_pca_components).fit_transform`
yields a matrix with the same number of rows and exactly
`num_pca_components = 60` columns, strictly fewer than 1280. -/
theorem pca_reduces_dimensionality (X W : List (List ℚ))
    (_hX : ∀ r ∈ X, r.length = 1280) (hW : W.length = num_pca_components) :
    (pcaFitTransform W X).length = X.length ∧
    (∀ r ∈ pcaFitTransform W X, r.length = num_pca_components) ∧
    num_pca_components < 1280 := by
  refine ⟨?_, ?_, by simp [num_pca_components]⟩
  · simp [pcaFitTransform, centerCols]
  · intro r hr
    simp only [pcaFitTransform, List.mem_map] at hr
    obtain ⟨r0, _, rfl⟩ := hr
    simp [hW]

/-- Witness for C5 at a concrete 1 × 1280 matrix and 60 components. -/
theorem pca_reduces_dimensionality_witness :
    (∀ r ∈ [List.replicate 1280 (0 : ℚ)], r.length = 1280) ∧
    (pcaFitTransform (List.replicate 60 (List.replicate 1280 (0 : ℚ)))
        [List.replicate 1280 (0 : ℚ)]).length = 1 ∧
    (∀ r ∈ pcaFitTransform (List.replicate 60 (List.replicate 1280 (0 : ℚ)))
        [List.replicate 1280 (0 : ℚ)], r.length = num_pca_components) := by
  have h := pca_reduces_dimensionality [List.replicate 1280 (0 : ℚ)]
    (List.replicate 60 (List.replicate 1280 (0 : ℚ)))
    (by intro r hr
        rw [List.mem_singleton] at hr
        subst hr
        rw [List.length_replicate])
    (by rw [List.length_replicate]; rfl)
  refine ⟨by intro r hr
             rw [List.mem_singleton] at hr
             subst hr
             rw [List.length_replicate],
    ?_, h.2.1⟩
  rw [h.1]; rfl

/-- Empty notebook state, for concrete instantiations. -/
def nbZero : NB := ⟨[], [], [], [], [], [], [], [], []⟩

/-- State with a concrete one-row 1280-feature training matrix. -/
def nbC4 : NB := { nbZero with Xs_train := [List.replicate 1280 (1 : ℚ)], ys_train := [1] }

/-- A concrete 1280 × 60 component matrix for `PCA(60)`. -/
def wC4 : List (List ℚ) := List.replicate 60 (List.replicate 1280 (0 : ℚ))

/-- C4 counterexample: the grid search of cell 26 is NOT fit on the
PCA-projected training features — at a concrete state whose raw training
matrix has 1280 columns, `grid.fit` receives `Xs_train` (1280 columns),
which differs from stage 3's output `Xs_train_pca` (60 columns). -/
theorem grid_fit_input_ne_pca_output :
    cell26FitInput (cell18Run wC4 nbC4) ≠ (cell18Run wC4 nbC4).Xs_train_pca := by
  intro h
  have h60 : ∀ r ∈ (cell18Run wC4 nbC4).Xs_train_pca, r.length = 60 := by
    intro r hr
    simp only [cell18Run, pcaFitTransform, List.mem_map] at hr
    obtain ⟨r0, _, rfl⟩ := hr
    rw [List.length_map]
    rfl
  have hmem : List.replicate 1280 (1 : ℚ) ∈ cell26FitInput (cell18Run wC4 nbC4) :=
    List.mem_cons_self _ _
  rw [h] at hmem
  have h1280 := h60 _ hmem
  rw [List.length_replicate] at h1280
  exact absurd h1280 (by decide)

/-- C4 amended: stage 4 consumes the output of the split stage, not of the
dimensionality-reduction stage — `grid.fit` receives the raw `Xs_train` and
`ys_train` produced by cell 15, unchanged by cell 18, and the grid-search
scoring runs on exactly these arrays (PCA is instead refit inside the
search pipeline; stage 3's `Xs_train_pca` feeds only the visualization). -/
theorem grid_fit_consumes_split_output {S : Type}
    (score : List (List ℚ) → List ℚ → S → ModelParams → ℚ) (splits : List S)
    (g : Nat) (W : List (List ℚ)) (s0 : NB) :
    cell26FitInput (cell18Run W (cell15Run g s0)) = (cell15Run g s0).Xs_train ∧
    (cell26Run score splits (cell18Run W (cell15Run g s0))).grid_list =
      families.map (fun fam =>
        gridSearchFit
          (score (cell15Run g s0).Xs_train (cell15Run g s0).ys_train)
          splits fam) :=
  ⟨rfl, rfl⟩

/-- C3: the evaluation stage prints exactly one rank-correlation statistic
per model family — three in total — and the `i`-th printed value is the
Spearman statistic of the held-out labels `ys_test` against the prediction
of family `i`'s retained best model on the held-out features `Xs_test`,
with the same held-out arrays for every family. -/
theorem eval_prints_one_spearman_per_family {S R : Type}
    (score : List (List ℚ) → List ℚ → S → ModelParams → ℚ) (splits : List S)
    (spearman : List ℚ → List ℚ → R)
    (predict : ModelParams → List (List ℚ) → List ℚ) (s : NB) :
    (cell35Run spearman predict (cell26Run score splits s)).2.length = 3 ∧
    (cell26Run score splits s).ys_test = s.ys_test ∧
    (cell26Run score splits s).Xs_test = s.Xs_test ∧
    ∀ i : Nat,
      (cell35Run spearman predict (cell26Run score splits s)).2[i]? =
        ((cell26Run score splits s).grid_list[i]?).map
          (fun b => spearman s.ys_test (gridPredict predict b s.Xs_test)) := by
  refine ⟨?_, rfl, rfl, ?_⟩
  · simp [cell35Run, cell35Prints, cell26Run, families]
  · intro i
    simp only [cell35Run, cell35Prints, List.getElem?_map]
    rfl

/-- C8: no array is mutated after the split — running the projection stage
(cell 18) and the search stage (cell 26) leaves `Xs_train`, `Xs_test`,
`ys_train`, `ys_test` (and the loaded `Xs`, `ys`) exactly as they were at
split time, and the evaluation stage (cell 35) returns the state untouched,
its only product being the printed list. -/
theorem no_mutation_after_split {S R : Type}
    (score : List (List ℚ) → List ℚ → S → ModelParams → ℚ) (splits : List S)
    (spearman : List ℚ → List ℚ → R)
    (predict : ModelParams → List (List ℚ) → List ℚ)
    (W : List (List ℚ)) (s1 : NB) :
    ((cell26Run score splits (cell18Run W s1)).Xs_train = s1.Xs_train ∧
     (cell26Run score splits (cell18Run W s1)).Xs_test = s1.Xs_test ∧
     (cell26Run score splits (cell18Run W s1)).ys_train = s1.ys_train ∧
     (cell26Run score splits (cell18Run W s1)).ys_test = s1.ys_test ∧
     (cell26Run score splits (cell18Run W s1)).Xs = s1.Xs ∧
     (cell26Run score splits (cell18Run W s1)).ys = s1.ys) ∧
    (cell35Run spearman predict (cell26Run score splits (cell18Run W s1))).1 =
      cell26Run score splits (cell18Run W s1) :=
  ⟨⟨rfl, rfl, rfl, rfl, rfl, rfl⟩, rfl⟩

/-- C2: for each family, the candidate retained in `grid_list` after the
search stage is exactly the best-scoring candidate (by mean validation
score over the common splits, scored with r2) of that family's grid; the
retained entry for family `i` is computed from family `i`'s candidates
alone, so candidates are never compared across families, and every
candidate's score is the mean over the one shared list of validation
splits. -/
theorem best_candidate_retained_per_family {S : Type}
    (score : List (List ℚ) → List ℚ → S → ModelParams → ℚ) (splits : List S)
    (s : NB) (i : Nat) (fam : List ModelParams) (b : ModelParams)
    (hfam : families[i]? = some fam)
    (hb : gridSearchFit (score s.Xs_train s.ys_train) splits fam = some b) :
    (cell26Run score splits s).grid_list[i]? = some (some b) ∧
    b ∈ fam ∧
    (∀ c ∈ fam, meanTestScore (score s.Xs_train s.ys_train) splits c ≤
      meanTestScore (score s.Xs_train s.ys_train) splits b) ∧
    (cell26Run score splits s).grid_list.length = families.length := by
  obtain ⟨hmem, hmax⟩ := gridSearchFit_best hb
  refine ⟨?_, hmem, hmax, by simp [cell26Run]⟩
  simp [cell26Run, cell26FitInput, List.getElem?_map, hfam, hb]

/-- Concrete scoring function for the C2 witness: ranks one SVR candidate
above all others. -/
def wScore : List (List ℚ) → List ℚ → Unit → ModelParams → ℚ :=
  fun _ _ _ c =>
    if c = ModelParams.svr ⟨1 / 10, "linear", 3, "scale"⟩ then 1 else 0

def wSplits : List Unit := [()]

def wFam : List ModelParams := svmCandidates.map ModelParams.svr

def wBest : ModelParams := ModelParams.svr ⟨1 / 10, "linear", 3, "scale"⟩

/-- Witness for C2 at the concrete SVR family. -/
theorem best_candidate_retained_per_family_witness :
    (cell26Run wScore wSplits nbZero).grid_list[1]? = some (some wBest) ∧
    wBest ∈ wFam := by
  have h := best_candidate_retained_per_family wScore wSplits nbZero 1
    wFam wBest rfl (by with_unfolding_all rfl)
  exact ⟨h.1, h.2.1⟩

/-- C1: the three hyperparameter grids declared in cell 23 enumerate 48 KNN,
12 SVR and 16 random-forest candidates, covering every combination of the
declared value lists — but the search loop of cell 26 never fits any of
them as shipped: the cell's `pipe = Pipeline(...)` statement leaves one
parenthesis unclosed (net balance +1), so Python rejects the whole cell
with `SyntaxError` before any candidate is fit. -/
theorem declared_grids_and_cell26_broken :
    (knnCandidates.length = 48 ∧ svmCandidates.length = 12 ∧
      rfrCandidates.length = 16) ∧
    (∀ a ∈ knn_n_neighbors, ∀ b ∈ knn_weights, ∀ c ∈ knn_algorithm,
      ∀ d ∈ knn_leaf_size, ∀ e ∈ knn_p,
        KNNParams.mk a b c d e ∈ knnCandidates) ∧
    (∀ a ∈ svm_C, ∀ b ∈ svm_kernel, ∀ c ∈ svm_degree, ∀ d ∈ svm_gamma,
      SVRParams.mk a b c d ∈ svmCandidates) ∧
    (∀ a ∈ rfr_n_estimators, ∀ b ∈ rfr_criterion, ∀ c ∈ rfr_max_features,
      ∀ d ∈ rfr_min_samples_split, ∀ e ∈ rfr_min_samples_leaf,
        RFRParams.mk a b c d e ∈ rfrCandidates) ∧
    parenBalance cell26PipeStmt = 1 := by
  refine ⟨⟨by decide, by decide, by decide⟩, ?_, ?_, ?_, by decide⟩
  · intro a ha b hb c hc d hd e he
    simp only [knnCandidates, List.mem_flatMap, List.mem_map]
    exact ⟨a, ha, b, hb, c, hc, d, hd, e, he, rfl⟩
  · intro a ha b hb c hc d hd
    simp only [svmCandidates, List.mem_flatMap, List.mem_map]
    exact ⟨a, ha, b, hb, c, hc, d, hd, rfl⟩
  · intro a ha b hb c hc d hd e he
    simp only [rfrCandidates, List.mem_flatMap, List.mem_map]
    exact ⟨a, ha, b, hb, c, hc, d, hd, e, he, rfl⟩

/-- Witness for C1: one concrete combination from each declared grid. -/
theorem declared_grids_and_cell26_broken_witness :
    KNNParams.mk 5 "uniform" "ball_tree" 15 1 ∈ knnCandidates ∧
    SVRParams.mk (1 / 10) "linear" 3 "scale" ∈ svmCandidates ∧
    RFRParams.mk 20 "squared_error" "sqrt" 5 1 ∈ rfrCandidates :=
  ⟨declared_grids_and_cell26_broken.2.1 5 (by decide) "uniform" (by decide)
      "ball_tree" (by decide) 15 (by decide) 1 (by decide),
   declared_grids_and_cell26_broken.2.2.1 (1 / 10)
      (by with_unfolding_all decide) "linear"
      (by decide) 3 (by decide) "scale" (by decide),
   declared_grids_and_cell26_broken.2.2.2.1 20 (by decide) "squared_error"
      (by decide) "sqrt" (by decide) 5 (by decide) 1 (by decide)⟩

/-- C6: uniform feature dimensionality — if the loading stage succeeds,
every row of the stacked matrix `Xs` has one common length (the embedding
dimensionality of the stored representations); `torch.stack` errors on
differing lengths, so loading cannot succeed otherwise. -/
theorem loaded_vectors_uniform_length {fs : FileSystem}
    {records : List (PyStr × PyStr)} {ys : List ℚ} {Xs : List (List ℚ)}
    (h : loadXsYs fs records = Except.ok (ys, Xs)) :
    (∃ d, ∀ v ∈ Xs, v.length = d) ∧
    ∀ v ∈ Xs, ∀ w ∈ Xs, v.length = w.length := by
  obtain ⟨pairs, _, hstack, _⟩ := loadXsYs_ok h
  obtain ⟨_, d, hd⟩ := torchStack_ok hstack
  exact ⟨⟨d, hd⟩, fun v hv w hw => (hd v hv).trans (hd w hw).symm⟩

/-- A concrete FASTA record and embedding directory on which loading
succeeds. -/
def wHeader : PyStr := ">0|M1A|1.5".data

def wRecords : List (PyStr × PyStr) := [(wHeader, "MK".data)]

def wEmb : EmbFile := ⟨[(34, [2, 3])]⟩

def wFs : FileSystem := fun p => if p = embFileName wHeader then some wEmb else none

/-- Witness for C6 at the concrete one-record dataset. -/
theorem loaded_vectors_uniform_length_witness :
    loadXsYs wFs wRecords = Except.ok ([3 / 2], [[2, 3]]) ∧
    ∃ d, ∀ v ∈ [[(2 : ℚ), 3]], v.length = d := by
  have h : loadXsYs wFs wRecords = Except.ok ([3 / 2], [[2, 3]]) := by
    with_unfolding_all rfl
  exact ⟨h, (loaded_vectors_uniform_length h).1⟩

/-- C7: a record with an unparsable header or a missing embedding file makes
the loading stage raise an uncaught exception; the script terminates with
that error and no partially loaded dataset reaches any later stage. -/
theorem malformed_input_aborts {S R : Type} {fs : FileSystem}
    {records : List (PyStr × PyStr)}
    (hbad : ∃ r ∈ records,
      pyFloat (lastField r.1) = none ∨ fs (embFileName r.1) = none)
    (globalState : Nat) (W : List (List ℚ))
    (score : List (List ℚ) → List ℚ → S → ModelParams → ℚ) (splits : List S)
    (spearman : List ℚ → List ℚ → R)
    (predict : ModelParams → List (List ℚ) → List ℚ) :
    ∃ e, loadXsYs fs records = Except.error e ∧
      script fs records globalState W score splits spearman predict =
        Except.error e := by
  obtain ⟨r, hr, hcond⟩ := hbad
  obtain ⟨e0, he0⟩ := loadStep_error hcond
  obtain ⟨e1, he1⟩ := loadLoop_error ⟨r, hr, e0, he0⟩
  have hload : loadXsYs fs records = Except.error e1 := by
    simp only [loadXsYs]; rw [he1, error_bind]
  refine ⟨e1, hload, ?_⟩
  simp only [script]; rw [hload, error_bind]

/-- A record whose header's last field is not numeric. -/
def wBadRecords : List (PyStr × PyStr) := [(">0|xx".data, [])]

/-- Witness for C7: the loader and the whole script abort on the bad
record. -/
theorem malformed_input_aborts_witness :
    ∃ e, loadXsYs (fun _ => none) wBadRecords = Except.error e ∧
      script (fun _ => none) wBadRecords 0 [] (fun _ _ _ _ => (0 : ℚ))
        ([] : List Unit) (fun _ _ => ()) (fun _ _ => []) =
        Except.error e :=
  malformed_input_aborts
    ⟨(">0|xx".data, []), List.mem_cons_self _ _, Or.inl (by decide)⟩
    0 [] (fun _ _ _ _ => (0 : ℚ)) ([] : List Unit) (fun _ _ => ())
    (fun _ _ => [])

/-- C9: labels and features stay aligned through loading — on success,
`ys` and `Xs` both have one entry per FASTA record, the `i`-th label is the
float parsed from the `i`-th record's header's last `|`-field, and the
`i`-th feature row is the layer-`EMB_LAYER` mean representation loaded from
the file named by that header with its leading character stripped. -/
theorem labels_features_aligned {fs : FileSystem}
    {records : List (PyStr × PyStr)} {ys : List ℚ} {Xs : List (List ℚ)}
    (h : loadXsYs fs records = Except.ok (ys, Xs)) :
    ys.length = records.length ∧ Xs.length = records.length ∧
    ∀ (i : Nat) r, records[i]? = some r →
      ys[i]? = pyFloat (lastField r.1) ∧
      Xs[i]? = (fs (embFileName r.1)).bind (fun e => e.layerRepr EMB_LAYER) := by
  obtain ⟨pairs, hloop, hstack, hys⟩ := loadXsYs_ok h
  obtain ⟨hXeq, _⟩ := torchStack_ok hstack
  obtain ⟨hlen, hfa⟩ := loadLoop_ok hloop
  subst hys
  subst hXeq
  refine ⟨by simp [hlen], by simp [hlen], ?_⟩
  intro i r hr
  obtain ⟨p, hp, hpi⟩ := hfa i r hr
  obtain ⟨hpf, e, hfs2, hlr⟩ := loadStep_ok_inv hp
  constructor
  · simp [List.getElem?_map, hpi, hpf]
  · simp [List.getElem?_map, hpi, hfs2, hlr]

/-- Witness for C9 at the concrete one-record dataset. -/
theorem labels_features_aligned_witness :
    loadXsYs wFs wRecords = Except.ok ([3 / 2], [[2, 3]]) ∧
    (3 / 2 : ℚ) = 3 / 2 ∧ ([(3 / 2 : ℚ)]).length = wRecords.length := by
  have h : loadXsYs wFs wRecords = Except.ok ([3 / 2], [[2, 3]]) := by
    with_unfolding_all rfl
  exact ⟨h, rfl, (labels_features_aligned h).1⟩

end VariantPrediction
